import Mathlib

/-!
Shallow embedding of the Windows `Target::Process` variant of the ds2 debug
server (Sources/Target/Windows/Process.cpp and
Headers/DebugServer2/Target/Windows/Process.h), together with proofs about
its behaviour.

Native Win32 calls (`ReadProcessMemory`, `WaitForDebugEvent`,
`GetExitCodeProcess`, ...) are modelled as explicit oracle inputs: each
embedded function receives the results the host would have produced and
computes exactly what the C++ code computes from them.  `DS2ASSERT` and
`DS2BUG` failures (loud aborts) are modelled as the `.error` branch of
`Except String`.
-/

namespace DS2

/-- Modelled from the spec: the portable error taxonomy of section 7 (the
`ErrorCode` enumeration lives in headers outside the provided sources; the
constant names follow the uses in Process.cpp, e.g. `kSuccess`,
`kErrorAlreadyExist`). -/
inductive ErrorCode where
  | kSuccess
  | kErrorNoPermission
  | kErrorNotFound
  | kErrorInvalidArgument
  | kErrorInvalidAddress
  | kErrorAlreadyExist
  | kErrorUnsupported
  | kErrorUnknown
deriving DecidableEq, Repr

/-- Win32 ERROR_PARTIAL_COPY (299), the last-error value checked by
`readMemory` and `writeMemory`. -/
def ERROR_PARTIAL_COPY : Nat := 299

/-- Win32 ERROR_ACCESS_DENIED (5). -/
def ERROR_ACCESS_DENIED : Nat := 5

/-- Modelled from the spec: `Host::Platform::TranslateError` maps a
host-native last-error code into the portable taxonomy (section 4.5; the
implementation lives outside the provided sources).  A zero host code means
no error; every nonzero host code maps to a non-success portable code. -/
def TranslateError (hostError : Nat) : ErrorCode :=
  if hostError = 0 then .kSuccess
  else if hostError = ERROR_ACCESS_DENIED then .kErrorNoPermission
  else if hostError = ERROR_PARTIAL_COPY then .kErrorInvalidAddress
  else .kErrorUnknown

/-- Result of one native bulk-copy call (`ReadProcessMemory` /
`WriteProcessMemory`): the BOOL result, the transferred byte count written
through the SIZE_T out-parameter, and the `GetLastError` value observed
when the call fails. -/
structure NativeTransfer where
  ok : Bool
  bytes : Nat
  lastError : Nat
deriving DecidableEq, Repr

/-- Embedding of `Process::readMemory` (Process.cpp lines 260-279).
`wantCount` is whether the caller passed a non-null `nread` pointer; the
second component is the value stored through it (`none` when the pointer is
null). -/
def Process.readMemory (native : NativeTransfer) (wantCount : Bool) :
    ErrorCode × Option Nat :=
  let countOut : Option Nat := if wantCount then some native.bytes else none
  if !native.ok then
    if native.lastError ≠ ERROR_PARTIAL_COPY ∨ native.bytes = 0 then
      (TranslateError native.lastError, countOut)
    else
      (.kSuccess, countOut)
  else
    (.kSuccess, countOut)

/-- Embedding of `Process::writeMemory` (Process.cpp lines 281-300); same
structure as `readMemory` with `nwritten` in place of `nread`. -/
def Process.writeMemory (native : NativeTransfer) (wantCount : Bool) :
    ErrorCode × Option Nat :=
  let countOut : Option Nat := if wantCount then some native.bytes else none
  if !native.ok then
    if native.lastError ≠ ERROR_PARTIAL_COPY ∨ native.bytes = 0 then
      (TranslateError native.lastError, countOut)
    else
      (.kSuccess, countOut)
  else
    (.kSuccess, countOut)

/-- Loop body of `Process::readString` (Process.cpp lines 245-255): read one
byte at `address + i`, stop on error or on a null terminator, otherwise
append and continue.  `readByte` models the one-byte `readMemory` calls;
the fuel argument is the number of iterations left (`length - i`). -/
def readStringLoop (readByte : Nat → Except ErrorCode Nat) (address : Nat) :
    Nat → Nat → List Nat → ErrorCode × List Nat
  | _, 0, str => (.kSuccess, str)
  | i, fuel + 1, str =>
    match readByte (address + i) with
    | .error e => (e, str)
    | .ok c =>
      if c = 0 then (.kSuccess, str)
      else readStringLoop readByte address (i + 1) fuel (str ++ [c])

/-- Embedding of `Process::readString` (Process.cpp lines 243-258).  `str0`
is the incoming contents of the `std::string &str` out-parameter (bytes are
appended to it) and `nread0` the incoming contents of the `size_t *nread`
out-parameter cell; the third component of the result is the final contents
of that cell. -/
def Process.readString (readByte : Nat → Except ErrorCode Nat)
    (address length : Nat) (str0 : List Nat) (nread0 : Nat) :
    ErrorCode × List Nat × Nat :=
  let r := readStringLoop readByte address 0 length str0
  (r.1, r.2, nread0)

/-- Byte order, as used by the `endian` field of the process info. -/
inductive Endian where
  | little
  | big
deriving DecidableEq, Repr

/-- Cached process attributes (`_info`), with the fields written by
`Process::updateInfo`. -/
structure ProcessInfo where
  pid : Nat
  realUid : Nat
  realGid : Nat
  cpuType : Nat
  cpuSubType : Nat
  nativeCPUType : Nat
  nativeCPUSubType : Nat
  endian : Endian
  pointerSize : Nat
  archFlags : Nat
  osType : String
  osVendor : String
deriving DecidableEq, Repr

/-- Results of the `Host::Platform` queries used by `updateInfo`
(`GetCPUType`, `GetCPUSubType`, `GetPointerSize`, `GetOSTypeName`,
`GetOSVendorName`); the implementations live outside the provided
sources, so their return values are oracle inputs. -/
structure PlatformFacts where
  cpuType : Nat
  cpuSubType : Nat
  pointerSize : Nat
  osTypeName : String
  osVendorName : String
deriving DecidableEq, Repr

/-- Embedding of `Process::updateInfo` (Process.cpp lines 302-336): an early
`kErrorAlreadyExist` return when the cached pid already matches, otherwise
every cached field is recomputed and `kSuccess` returned. -/
def Process.updateInfo (plat : PlatformFacts) (pid : Nat) (info : ProcessInfo) :
    ErrorCode × ProcessInfo :=
  if info.pid = pid then (.kErrorAlreadyExist, info)
  else
    (.kSuccess,
      { pid := pid
        realUid := 0
        realGid := 0
        cpuType := plat.cpuType
        cpuSubType := plat.cpuSubType
        nativeCPUType := plat.cpuType
        nativeCPUSubType := plat.cpuSubType
        endian := .little
        pointerSize := plat.pointerSize
        archFlags := 0
        osType := plat.osTypeName
        osVendor := plat.osVendorName })

/-- Win32 MEM_RELEASE. -/
def MEM_RELEASE : Nat := 0x8000

/-- Embedding of `Process::deallocateMemory` (Process.cpp lines 386-394).
`vfreeEx` models `VirtualFreeEx` as a function of the four arguments the
code passes to it; note the code passes a literal `0` as the native size
argument, not `size`. -/
def Process.deallocateMemory (vfreeEx : Nat → Nat → Nat → Nat → Bool)
    (lastError : Nat) (handle address size : Nat) : ErrorCode :=
  if vfreeEx handle address 0 MEM_RELEASE then .kSuccess
  else TranslateError lastError

/-- Events the embedded stop-info distinguishes (`StopInfo::kEvent...`). -/
inductive StopEvent where
  | kEventNone
  | kEventStop
  | kEventExit
  | kEventKill
deriving DecidableEq, Repr

/-- Stop reasons used by the embedded stop-info (`StopInfo::kReason...`). -/
inductive StopReason where
  | kReasonNone
  | kReasonBreakpoint
  | kReasonException
  | kReasonThreadExit
deriving DecidableEq, Repr

/-- Last-stop descriptor of a thread (`StopInfo`). -/
structure StopInfo where
  event : StopEvent := .kEventNone
  reason : StopReason := .kReasonNone
  status : Nat := 0
deriving DecidableEq, Repr

/-- Run states of a thread, following section 3 of the spec. -/
inductive ThreadState where
  | kRunning
  | kStopped
  | kSuspended
  | kTerminated
deriving DecidableEq, Repr

/-- One debuggee thread: id, native handle, run state and last-stop
descriptor. -/
structure Thread where
  tid : Nat
  handle : Nat
  state : ThreadState := .kStopped
  stopInfo : StopInfo := {}
deriving DecidableEq, Repr

/-- Modelled from the spec: `Thread::suspend` holds the thread suspended
(the Windows Thread implementation lives outside the provided sources). -/
def Thread.suspend (t : Thread) : Thread :=
  { t with state := .kSuspended }

/-- Modelled from the spec: `Thread::resume` requests continued native
execution of the thread; the native call may fail, reported through the
per-thread oracle `resumeErr`, in which case the state is unchanged. -/
def Thread.resume (resumeErr : Nat → ErrorCode) (t : Thread) :
    ErrorCode × Thread :=
  match resumeErr t.tid with
  | .kSuccess => (.kSuccess, { t with state := .kRunning })
  | e => (e, t)

/-- Modelled from the spec: `Thread::updateState(de)` refreshes the thread
state and last-stop descriptor from the payload of the native debug event
(the Windows Thread implementation lives outside the provided sources). -/
def Thread.updateStateFromEvent (t : Thread) (isThreadExit : Bool)
    (isException : Bool) : Thread :=
  if isThreadExit then
    { t with state := .kTerminated
             stopInfo := { t.stopInfo with event := .kEventExit,
                                           reason := .kReasonThreadExit } }
  else if isException then
    { t with state := .kStopped
             stopInfo := { t.stopInfo with event := .kEventStop,
                                           reason := .kReasonException } }
  else
    { t with state := .kStopped
             stopInfo := { t.stopInfo with event := .kEventStop } }

/-- Embedding of `Process::PendingEvent` (Process.h lines 28-48): a valid
flag plus the owning thread id. -/
structure PendingEvent where
  valid : Bool := false
  tid : Nat := 0
deriving DecidableEq, Repr

/-- Embedding of `PendingEvent::set` (Process.h lines 36-41): assert the
event is not already valid, record the owning thread id and suspend that
thread.  The updated thread is returned alongside the updated event. -/
def PendingEvent.set (pe : PendingEvent) (thread : Thread) :
    Except String (PendingEvent × Thread) :=
  if pe.valid then .error "DS2ASSERT failed: !_valid"
  else .ok ({ valid := true, tid := thread.tid }, thread.suspend)

/-- Embedding of `PendingEvent::reset` (Process.h lines 43-47): assert the
event is valid, then clear it. -/
def PendingEvent.reset (pe : PendingEvent) : Except String PendingEvent :=
  if pe.valid then .ok { valid := false, tid := 0 }
  else .error "DS2ASSERT failed: _valid"

/-- State of one `Target::Windows::Process`: the fields of the C++ object
that `wait` reads and writes.  `currentThread` caches a copy of the thread
the `_currentThread` pointer designates; every mutation through that
pointer is mirrored into the `threads` registry by `setCurrentThread`. -/
structure ProcState where
  pid : Nat := 0
  handle : Option Nat := none
  terminated : Bool := false
  threads : List Thread := []
  currentThread : Option Thread := none
  pendingEvent : PendingEvent := {}
deriving DecidableEq, Repr

/-- Lookup in the thread registry (`_threads.find(tid)`). -/
def ProcState.findThread (s : ProcState) (tid : Nat) : Option Thread :=
  s.threads.find? (fun t => t.tid = tid)

/-- Registration of a freshly constructed thread: the `Thread` constructor
inserts the new object into the process thread map. -/
def ProcState.insertThread (s : ProcState) (t : Thread) : ProcState :=
  { s with threads := s.threads ++ [t] }

/-- Embedding of `removeThread(tid)`: drop the entry from the registry. -/
def ProcState.removeThread (s : ProcState) (tid : Nat) : ProcState :=
  { s with threads := s.threads.filter (fun t => t.tid ≠ tid) }

/-- Point `_currentThread` at `t` and mirror the (possibly mutated) thread
into the registry entry bearing its id, reflecting that the C++ code
mutates the registered object through the pointer. -/
def ProcState.setCurrentThread (s : ProcState) (t : Thread) : ProcState :=
  { s with currentThread := some t
           threads := s.threads.map (fun u => if u.tid = t.tid then t else u) }

/-- Modelled from the spec: `ProcessBase::suspend` requests that the whole
process be suspended (every thread held); the implementation lives outside
the provided sources.  Failure is reported through the oracle value. -/
def ProcState.suspendAll (s : ProcState) (err : ErrorCode) :
    ErrorCode × ProcState :=
  match err with
  | .kSuccess =>
    (.kSuccess,
      { s with threads := s.threads.map Thread.suspend
               currentThread := s.currentThread.map Thread.suspend })
  | e => (e, s)

/-- One native debug event as delivered by `WaitForDebugEvent`, reduced to
the payload Process.cpp reads.  For the process-creation event the process
and thread handles are `Option`s so that the NULL assertions are
expressible; `tid` stands for `de.dwThreadId` (or `GetThreadId` of the new
handle). -/
inductive DebugEvent where
  | createProcess (hProcess : Option Nat) (hThread : Option Nat)
      (hFile : Option Nat) (tid : Nat)
  | exitProcess (tid : Nat)
  | createThread (tid : Nat) (hThread : Nat)
  | exitThread (tid : Nat)
  | exceptionEvent (tid : Nat)
  | loadDll (tid : Nat)
  | unloadDll (tid : Nat)
  | outputDebugString (tid : Nat)
  | unknownEvent (code : Nat)
deriving DecidableEq, Repr

/-- Oracle for the native calls `wait` performs besides
`WaitForDebugEvent`: the last-error value when the event queue dries up,
the `GetExitCodeProcess` result (`none` is failure) with its last-error
value, the per-thread resume results and the whole-process suspend
result. -/
structure WaitOracle where
  waitError : Nat := 0
  exitCodeResult : Option Nat := none
  exitCodeError : Nat := 0
  resumeErr : Nat → ErrorCode := fun _ => .kSuccess
  suspendErr : ErrorCode := .kSuccess

/-- Embedding of the `for (;;)` loop of `Process::wait` (Process.cpp lines
142-240).  The `events` list holds the successive results of
`WaitForDebugEvent`; an empty list models a failing native wait.  `.error`
is a `DS2ASSERT` / `DS2BUG` abort. -/
def ProcState.waitLoop (oracle : WaitOracle) :
    ProcState → List DebugEvent → Except String (ErrorCode × ProcState)
  | s, [] =>
    .ok (TranslateError oracle.waitError, { s with currentThread := none })
  | s, de :: rest =>
    let s0 : ProcState := { s with currentThread := none }
    match de with
    | .createProcess hProcess hThread _ tid =>
      if s0.handle ≠ none then .error "DS2ASSERT failed: _handle == nullptr"
      else
        match hProcess, hThread with
        | some hp, some ht =>
          let newThread : Thread := { tid := tid, handle := ht }
          let s1 := { s0 with handle := some hp }
          let s2 := (s1.insertThread newThread).setCurrentThread newThread
          match s2.pendingEvent.set newThread with
          | .error msg => .error msg
          | .ok (pe, t1) =>
            .ok (.kSuccess, { s2.setCurrentThread t1 with pendingEvent := pe })
        | none, _ =>
          .error "DS2ASSERT failed: de.u.CreateProcessInfo.hProcess != NULL"
        | some _, none =>
          .error "DS2ASSERT failed: de.u.CreateProcessInfo.hThread != NULL"
    | .exitProcess tid =>
      if s0.threads.length = 1 then
        match s0.findThread tid with
        | none => .error "DS2ASSERT failed: threadIt != threads.end()"
        | some t =>
          let s1 := s0.setCurrentThread t
          match s1.pendingEvent.set t with
          | .error msg => .error msg
          | .ok (pe, t1) =>
            let s2 := { s1.setCurrentThread t1 with pendingEvent := pe }
            let s3 := { s2 with terminated := true }
            let t2 := { t1 with state := .kTerminated }
            let s4 := s3.setCurrentThread t2
            match oracle.exitCodeResult with
            | none => .ok (TranslateError oracle.exitCodeError, s4)
            | some exitCode =>
              let t3 := { t2 with stopInfo := { t2.stopInfo with
                                                  event := .kEventExit,
                                                  status := exitCode } }
              .ok (.kSuccess, s4.setCurrentThread t3)
      else .error "DS2ASSERT failed: _threads.size() == 1"
    | .createThread tid hThread =>
      let newThread : Thread := { tid := tid, handle := hThread }
      let s1 := (s0.insertThread newThread).setCurrentThread newThread
      match Thread.resume oracle.resumeErr newThread with
      | (.kSuccess, t1) => ProcState.waitLoop oracle (s1.setCurrentThread t1) rest
      | (e, t1) => .ok (e, s1.setCurrentThread t1)
    | .exitThread tid =>
      match s0.findThread tid with
      | none => .error "DS2ASSERT failed: threadIt != threads.end()"
      | some t =>
        let t1 := t.updateStateFromEvent true false
        let s1 := s0.setCurrentThread t1
        match Thread.resume oracle.resumeErr t1 with
        | (.kSuccess, t2) =>
          ProcState.waitLoop oracle ((s1.setCurrentThread t2).removeThread t2.tid)
            rest
        | (e, t2) => .ok (e, s1.setCurrentThread t2)
    | .exceptionEvent tid =>
      match s0.findThread tid with
      | none => .error "DS2ASSERT failed: threadIt != threads.end()"
      | some t =>
        let t1 := t.updateStateFromEvent false true
        let s1 := s0.setCurrentThread t1
        match s1.pendingEvent.set t1 with
        | .error msg => .error msg
        | .ok (pe, t2) =>
          let s2 := { s1.setCurrentThread t2 with pendingEvent := pe }
          match s2.suspendAll oracle.suspendErr with
          | (.kSuccess, s3) => .ok (.kSuccess, s3)
          | (e, s3) => .ok (e, s3)
    | .loadDll tid =>
      match s0.findThread tid with
      | none => .error "DS2ASSERT failed: threadIt != threads.end()"
      | some t =>
        let t1 := t.updateStateFromEvent false false
        let s1 := s0.setCurrentThread t1
        match s1.pendingEvent.set t1 with
        | .error msg => .error msg
        | .ok (pe, t2) =>
          let s2 := { s1.setCurrentThread t2 with pendingEvent := pe }
          match s2.suspendAll oracle.suspendErr with
          | (.kSuccess, s3) => .ok (.kSuccess, s3)
          | (e, s3) => .ok (e, s3)
    | .unloadDll tid =>
      match s0.findThread tid with
      | none => .error "DS2ASSERT failed: threadIt != threads.end()"
      | some t =>
        let t1 := t.updateStateFromEvent false false
        let s1 := s0.setCurrentThread t1
        match s1.pendingEvent.set t1 with
        | .error msg => .error msg
        | .ok (pe, t2) =>
          let s2 := { s1.setCurrentThread t2 with pendingEvent := pe }
          match s2.suspendAll oracle.suspendErr with
          | (.kSuccess, s3) => .ok (.kSuccess, s3)
          | (e, s3) => .ok (e, s3)
    | .outputDebugString tid =>
      match s0.findThread tid with
      | none => .error "DS2ASSERT failed: threadIt != threads.end()"
      | some t =>
        let t1 := t.updateStateFromEvent false false
        let s1 := s0.setCurrentThread t1
        match s1.pendingEvent.set t1 with
        | .error msg => .error msg
        | .ok (pe, t2) =>
          let s2 := { s1.setCurrentThread t2 with pendingEvent := pe }
          match s2.suspendAll oracle.suspendErr with
          | (.kSuccess, s3) => .ok (.kSuccess, s3)
          | (e, s3) => .ok (e, s3)
    | .unknownEvent _ =>
      .error "DS2BUG: unknown debug event code"

/-- Embedding of `Process::wait` (Process.cpp lines 134-241): when
`_terminated` is already set (terminate succeeded earlier), assert a cached
current thread exists, stamp its stop event to Kill and return success
without touching the native event source; otherwise enter the event
loop. -/
def ProcState.wait (oracle : WaitOracle) (events : List DebugEvent)
    (s : ProcState) : Except String (ErrorCode × ProcState) :=
  if s.terminated then
    match s.currentThread with
    | none => .error "DS2ASSERT failed: _currentThread != nullptr"
    | some t =>
      let t1 := { t with stopInfo := { t.stopInfo with event := .kEventKill } }
      .ok (.kSuccess, s.setCurrentThread t1)
  else s.waitLoop oracle events

/-- Module descriptor passed to the `enumerateSharedLibraries` visitor
(`SharedLibraryInfo`), with the path as a character list. -/
structure SharedLibraryInfo where
  main : Bool
  path : List Char
  sections : List Nat
deriving DecidableEq, Repr

/-- Path normalization inside the module loop (Process.cpp lines 430-435):
strip a leading drive prefix `X:` (uppercase letter plus colon), then turn
every backslash into a forward slash. -/
def normalizeModulePath (p : List Char) : List Char :=
  let trimmed :=
    match p with
    | c0 :: c1 :: rest =>
      if 'A' ≤ c0 ∧ c0 ≤ 'Z' ∧ c1 = ':' then rest else p
    | _ => p
  trimmed.map (fun c => if c = '\\' then '/' else c)

/-- Module loop of `Process::enumerateSharedLibraries` (Process.cpp lines
414-442): for each module build a descriptor (main flag from comparison
with the first handle, normalized path, the module handle as the single
section) and invoke the visitor; a failing `GetModuleFileNameExW` aborts
the loop with a translated error.  The returned list is the sequence of
visitor invocations actually made. -/
def enumModulesLoop (getName : Nat → Option (List Char)) (nameError : Nat)
    (firstModule : Nat) : List Nat → ErrorCode × List SharedLibraryInfo
  | [] => (.kSuccess, [])
  | m :: rest =>
    match getName m with
    | none => (TranslateError nameError, [])
    | some nameStr =>
      let sl : SharedLibraryInfo :=
        { main := m == firstModule
          path := normalizeModulePath nameStr
          sections := [m] }
      let r := enumModulesLoop getName nameError firstModule rest
      (r.1, sl :: r.2)

/-- Embedding of `Process::enumerateSharedLibraries` (Process.cpp lines
396-445).  `enumOk1` / `enumOk2` are the results of the two
`EnumProcessModules` calls, `modules` the handle list the second call
fills, `getName` the per-module `GetModuleFileNameExW` result (`none` is
failure). -/
def Process.enumerateSharedLibraries (enumOk1 enumOk2 : Bool)
    (enumError : Nat) (modules : List Nat)
    (getName : Nat → Option (List Char)) (nameError : Nat) :
    ErrorCode × List SharedLibraryInfo :=
  if !enumOk1 then (TranslateError enumError, [])
  else if !enumOk2 then (TranslateError enumError, [])
  else
    match modules with
    | [] => (.kSuccess, [])
    | m0 :: _ => enumModulesLoop getName nameError m0 modules

/-! ## Helper lemmas -/

/-- Replacing the registry entry with a given id is the identity when no
registered thread bears that id. -/
theorem map_replace_of_fresh (l : List Thread) (tid : Nat) (t : Thread)
    (h : ∀ u ∈ l, u.tid ≠ tid) :
    l.map (fun u => if u.tid = tid then t else u) = l := by
  induction l with
  | nil => rfl
  | cons a l ih =>
    simp only [List.map_cons, List.cons.injEq]
    refine ⟨?_, ih fun u hu => h u (List.mem_cons_of_mem a hu)⟩
    simp [h a (List.mem_cons_self a l)]

/-- Backslash elimination: the character map used on module paths never
produces a backslash. -/
theorem backslash_not_mem_map (q : List Char) :
    '\\' ∉ q.map (fun c => if c = '\\' then '/' else c) := by
  intro h
  rcases List.mem_map.mp h with ⟨c, _, hc⟩
  by_cases hb : c = '\\' <;> simp [hb] at hc

/-- Normalization leaves no backslash in a module path. -/
theorem normalizeModulePath_no_backslash (p : List Char) :
    '\\' ∉ normalizeModulePath p :=
  backslash_not_mem_map _

/-! ## Claims -/

/-- C10: `deallocateMemory(address, size)` ignores its size argument
entirely: the native release call receives a literal zero size together
with MEM_RELEASE, so for every address and every pair of size values the
result is the same. -/
theorem C10_deallocateMemory_ignores_size
    (vfreeEx : Nat → Nat → Nat → Nat → Bool) (lastError handle address : Nat)
    (size1 size2 : Nat) :
    Process.deallocateMemory vfreeEx lastError handle address size1 =
      Process.deallocateMemory vfreeEx lastError handle address size2 := rfl

/-- C3 counterexample: the claim says a failure code is returned only when
the native call errors with zero bytes transferred, but a native error
other than ERROR_PARTIAL_COPY (here ERROR_ACCESS_DENIED) with five bytes
transferred still yields a failure code, and the five bytes are reported
through `nread`. -/
theorem C3_failure_with_nonzero_bytes :
    (Process.readMemory ⟨false, 5, ERROR_ACCESS_DENIED⟩ true).1 ≠
        ErrorCode.kSuccess ∧
      (Process.readMemory ⟨false, 5, ERROR_ACCESS_DENIED⟩ true).2 = some 5 := by
  decide

/-- C3 (amended): the transferred count is always reported through a
supplied `nread`/`nwritten`, a partial-copy error with a nonzero count
yields success, and a failure code is returned only when the native call
errors and additionally the error is not partial-copy or zero bytes were
transferred. -/
theorem C3_transfer_count_reporting (native : NativeTransfer)
    (wantCount : Bool) :
    (wantCount = true →
        (Process.readMemory native wantCount).2 = some native.bytes ∧
        (Process.writeMemory native wantCount).2 = some native.bytes) ∧
    (native.ok = false → native.lastError = ERROR_PARTIAL_COPY →
        native.bytes ≠ 0 →
        (Process.readMemory native wantCount).1 = .kSuccess ∧
        (Process.writeMemory native wantCount).1 = .kSuccess) ∧
    ((Process.readMemory native wantCount).1 ≠ .kSuccess →
        native.ok = false ∧
          (native.lastError ≠ ERROR_PARTIAL_COPY ∨ native.bytes = 0)) ∧
    ((Process.writeMemory native wantCount).1 ≠ .kSuccess →
        native.ok = false ∧
          (native.lastError ≠ ERROR_PARTIAL_COPY ∨ native.bytes = 0)) := by
  obtain ⟨ok, bytes, lastError⟩ := native
  cases ok <;> cases wantCount <;>
    by_cases hpc : lastError = ERROR_PARTIAL_COPY <;>
      by_cases hb : bytes = 0 <;>
        simp_all [Process.readMemory, Process.writeMemory]

/-- C3 witness: at a failing native read flagged ERROR_PARTIAL_COPY with
three bytes transferred and a non-null `nread`, the count is reported and
the call succeeds. -/
theorem C3_transfer_count_reporting_witness :
    (Process.readMemory ⟨false, 3, ERROR_PARTIAL_COPY⟩ true).2 = some 3 ∧
    (Process.readMemory ⟨false, 3, ERROR_PARTIAL_COPY⟩ true).1 = .kSuccess :=
  ⟨((C3_transfer_count_reporting ⟨false, 3, ERROR_PARTIAL_COPY⟩ true).1 rfl).1,
   ((C3_transfer_count_reporting ⟨false, 3, ERROR_PARTIAL_COPY⟩ true).2.1 rfl
      rfl (by decide)).1⟩

/-- C5: the pending-event object admits exactly the set and reset
transitions — set asserts the event is not already valid (a second set
without an intervening reset aborts), records the owning thread id and
suspends that thread; reset asserts the event is valid and clears it. -/
theorem C5_pendingEvent_transitions (pe : PendingEvent) (t : Thread) :
    (pe.valid = true → pe.set t = .error "DS2ASSERT failed: !_valid") ∧
    (pe.valid = false →
        pe.set t = .ok ({ valid := true, tid := t.tid }, t.suspend) ∧
        t.suspend.state = .kSuspended ∧ t.suspend.tid = t.tid) ∧
    (pe.valid = true → pe.reset = .ok { valid := false, tid := 0 }) ∧
    (pe.valid = false → pe.reset = .error "DS2ASSERT failed: _valid") := by
  refine ⟨fun h => ?_, fun h => ⟨?_, rfl, rfl⟩, fun h => ?_, fun h => ?_⟩ <;>
    simp [PendingEvent.set, PendingEvent.reset, h]

/-- C5 witness: the four transitions evaluated on concrete pending events
and a concrete thread. -/
theorem C5_pendingEvent_transitions_witness :
    PendingEvent.set ⟨true, 3⟩ ⟨9, 1, .kStopped, ⟨.kEventNone, .kReasonNone, 0⟩⟩ =
        .error "DS2ASSERT failed: !_valid" ∧
    PendingEvent.set ⟨false, 0⟩ ⟨9, 1, .kStopped, ⟨.kEventNone, .kReasonNone, 0⟩⟩ =
        .ok (⟨true, 9⟩, ⟨9, 1, .kSuspended, ⟨.kEventNone, .kReasonNone, 0⟩⟩) ∧
    PendingEvent.reset ⟨true, 3⟩ = .ok ⟨false, 0⟩ ∧
    PendingEvent.reset ⟨false, 0⟩ = .error "DS2ASSERT failed: _valid" :=
  ⟨(C5_pendingEvent_transitions ⟨true, 3⟩
      ⟨9, 1, .kStopped, ⟨.kEventNone, .kReasonNone, 0⟩⟩).1 rfl,
   ((C5_pendingEvent_transitions ⟨false, 0⟩
      ⟨9, 1, .kStopped, ⟨.kEventNone, .kReasonNone, 0⟩⟩).2.1 rfl).1,
   (C5_pendingEvent_transitions ⟨true, 3⟩
      ⟨9, 1, .kStopped, ⟨.kEventNone, .kReasonNone, 0⟩⟩).2.2.1 rfl,
   (C5_pendingEvent_transitions ⟨false, 0⟩
      ⟨9, 1, .kStopped, ⟨.kEventNone, .kReasonNone, 0⟩⟩).2.2.2 rfl⟩

/-- C7: `readString` never stores to the `nread` out-parameter cell.  On a
memory holding bytes 65, 66, 0 from address 0 with requested length 5,
three one-byte reads are performed and two bytes appended, yet the cell
keeps whatever value it held before the call (99 or 0 here) instead of a
transferred count. -/
theorem C7_readString_ignores_nread :
    Process.readString (fun a => .ok ([65, 66, 0, 67, 68].getD a 1)) 0 5 [] 99 =
        (.kSuccess, [65, 66], 99) ∧
    Process.readString (fun a => .ok ([65, 66, 0, 67, 68].getD a 1)) 0 5 [] 0 =
        (.kSuccess, [65, 66], 0) := by
  decide

/-- C8: `updateInfo` is a no-op returning `kErrorAlreadyExist` when the
cached pid already equals the process pid, and otherwise recomputes every
cached attribute from the platform and returns success. -/
theorem C8_updateInfo_idempotent (plat : PlatformFacts) (pid : Nat)
    (info : ProcessInfo) :
    (info.pid = pid →
        Process.updateInfo plat pid info = (.kErrorAlreadyExist, info)) ∧
    (info.pid ≠ pid →
        (Process.updateInfo plat pid info).1 = .kSuccess ∧
        (Process.updateInfo plat pid info).2.pid = pid ∧
        (Process.updateInfo plat pid info).2.cpuType = plat.cpuType ∧
        (Process.updateInfo plat pid info).2.cpuSubType = plat.cpuSubType ∧
        (Process.updateInfo plat pid info).2.endian = .little ∧
        (Process.updateInfo plat pid info).2.pointerSize = plat.pointerSize ∧
        (Process.updateInfo plat pid info).2.osType = plat.osTypeName ∧
        (Process.updateInfo plat pid info).2.osVendor = plat.osVendorName) := by
  constructor
  · intro h
    simp [Process.updateInfo, h]
  · intro h
    simp [Process.updateInfo, h]

/-- C8 witness: a stale call on matching identity returns
`kErrorAlreadyExist` unchanged; on a differing identity the recompute
succeeds. -/
theorem C8_updateInfo_idempotent_witness :
    Process.updateInfo ⟨1, 2, 8, "winnt", "msft"⟩ 5
        ⟨5, 0, 0, 1, 2, 1, 2, .little, 8, 0, "winnt", "msft"⟩ =
      (.kErrorAlreadyExist,
        ⟨5, 0, 0, 1, 2, 1, 2, .little, 8, 0, "winnt", "msft"⟩) ∧
    (Process.updateInfo ⟨1, 2, 8, "winnt", "msft"⟩ 6
        ⟨5, 0, 0, 1, 2, 1, 2, .little, 8, 0, "winnt", "msft"⟩).1 = .kSuccess :=
  ⟨(C8_updateInfo_idempotent ⟨1, 2, 8, "winnt", "msft"⟩ 5
      ⟨5, 0, 0, 1, 2, 1, 2, .little, 8, 0, "winnt", "msft"⟩).1 rfl,
   ((C8_updateInfo_idempotent ⟨1, 2, 8, "winnt", "msft"⟩ 6
      ⟨5, 0, 0, 1, 2, 1, 2, .little, 8, 0, "winnt", "msft"⟩).2 (by decide)).1⟩

/-- When every one-byte read succeeds and a terminator occurs after `j0`
further nonzero bytes, the read-string loop stops at the terminator and
returns the bytes before it. -/
theorem readStringLoop_terminator (byteAt : Nat → Nat) (address : Nat) :
    ∀ fuel i str j0, j0 < fuel → byteAt (address + i + j0) = 0 →
      (∀ j, j < j0 → byteAt (address + i + j) ≠ 0) →
      readStringLoop (fun a => .ok (byteAt a)) address i fuel str =
        (.kSuccess,
          str ++ (List.range j0).map (fun j => byteAt (address + i + j))) := by
  intro fuel
  induction fuel with
  | zero => intro i str j0 h; omega
  | succ fuel ih =>
    intro i str j0 hlt hzero hpre
    cases j0 with
    | zero =>
      have hc : byteAt (address + i) = 0 := by simpa using hzero
      simp [readStringLoop, hc]
    | succ k =>
      have hc : byteAt (address + i) ≠ 0 := by
        have := hpre 0 (Nat.succ_pos k)
        simpa using this
      have hshift : ∀ j, address + (i + 1) + j = address + i + (j + 1) := by
        intro j; omega
      have hrec := ih (i + 1) (str ++ [byteAt (address + i)]) k
        (Nat.lt_of_succ_lt_succ hlt)
        (by rw [hshift]; exact hzero)
        (fun j hj => by rw [hshift]; exact hpre (j + 1) (Nat.succ_lt_succ hj))
      simp only [hshift] at hrec
      simp only [readStringLoop]
      rw [if_neg hc, hrec]
      simp [List.range_succ_eq_map, List.map_map, Function.comp,
        Nat.succ_eq_add_one]

/-- When every one-byte read succeeds and no terminator occurs within the
remaining fuel, the loop consumes the whole bound and returns all bytes. -/
theorem readStringLoop_no_terminator (byteAt : Nat → Nat) (address : Nat) :
    ∀ fuel i str, (∀ j, j < fuel → byteAt (address + i + j) ≠ 0) →
      readStringLoop (fun a => .ok (byteAt a)) address i fuel str =
        (.kSuccess,
          str ++ (List.range fuel).map (fun j => byteAt (address + i + j))) := by
  intro fuel
  induction fuel with
  | zero => intro i str _; simp [readStringLoop]
  | succ fuel ih =>
    intro i str hpre
    have hc : byteAt (address + i) ≠ 0 := by
      have := hpre 0 (Nat.succ_pos fuel)
      simpa using this
    have hshift : ∀ j, address + (i + 1) + j = address + i + (j + 1) := by
      intro j; omega
    have hrec := ih (i + 1) (str ++ [byteAt (address + i)])
      (fun j hj => by rw [hshift]; exact hpre (j + 1) (Nat.succ_lt_succ hj))
    simp only [hshift] at hrec
    simp only [readStringLoop]
    rw [if_neg hc, hrec]
    simp [List.range_succ_eq_map, List.map_map, Function.comp,
      Nat.succ_eq_add_one]

/-- C6: with every one-byte read succeeding, `readString` returns success
with the string truncated at the first null terminator when one occurs
before the requested length, and success with a string of exactly the
requested length when none does — truncation is never an error. -/
theorem C6_readString_truncation (byteAt : Nat → Nat) (address length : Nat) :
    (∀ j0, j0 < length → byteAt (address + j0) = 0 →
        (∀ j, j < j0 → byteAt (address + j) ≠ 0) →
        Process.readString (fun a => .ok (byteAt a)) address length [] 0 =
          (.kSuccess, (List.range j0).map (fun j => byteAt (address + j)), 0)) ∧
    ((∀ j, j < length → byteAt (address + j) ≠ 0) →
        Process.readString (fun a => .ok (byteAt a)) address length [] 0 =
          (.kSuccess, (List.range length).map (fun j => byteAt (address + j)), 0) ∧
        ((List.range length).map (fun j => byteAt (address + j))).length =
          length) := by
  constructor
  · intro j0 hlt hzero hpre
    have h := readStringLoop_terminator byteAt address length 0 [] j0 hlt
      (by simpa using hzero) (fun j hj => by simpa using hpre j hj)
    simp only [Process.readString, h]
    simp
  · intro hpre
    have h := readStringLoop_no_terminator byteAt address length 0 []
      (fun j hj => by simpa using hpre j hj)
    constructor
    · simp only [Process.readString, h]
      simp
    · simp

/-- C6 witness: a memory holding bytes 72, 105, 0 truncates at offset 2 for
a requested length of 5, and a terminator-free memory yields exactly the
requested three bytes. -/
theorem C6_readString_truncation_witness :
    Process.readString (fun a => .ok ([72, 105, 0].getD a 7)) 0 5 [] 0 =
        (.kSuccess, (List.range 2).map (fun j => [72, 105, 0].getD (0 + j) 7), 0) ∧
    Process.readString (fun a => .ok (a + 1)) 10 3 [] 0 =
        (.kSuccess, (List.range 3).map (fun j => 10 + j + 1), 0) :=
  ⟨(C6_readString_truncation (fun a => [72, 105, 0].getD a 7) 0 5).1 2
      (by decide) (by decide) (by decide),
   ((C6_readString_truncation (fun a => a + 1) 10 3).2 (by omega)).1⟩

/-- C1: once the terminated flag is set, the next `wait` does not touch the
native event source (the result is the same for every oracle and event
queue): it stamps the cached current thread's stop event to Kill and
returns success.  A missing cached thread is an assertion failure, per the
`DS2ASSERT` guarding the branch. -/
theorem C1_wait_after_terminate (oracle : WaitOracle) (events : List DebugEvent)
    (s : ProcState) (t : Thread) (hterm : s.terminated = true)
    (hcur : s.currentThread = some t) :
    s.wait oracle events =
      .ok (.kSuccess,
        s.setCurrentThread
          { t with stopInfo := { t.stopInfo with event := .kEventKill } }) := by
  simp [ProcState.wait, hterm, hcur]

/-- C1 witness: a terminated process with a cached current thread
synthesizes the Kill event immediately on an empty event queue. -/
theorem C1_wait_after_terminate_witness :
    ProcState.wait {} []
        { pid := 1, handle := some 4, terminated := true,
          threads := [⟨7, 2, .kStopped, ⟨.kEventNone, .kReasonNone, 0⟩⟩],
          currentThread := some ⟨7, 2, .kStopped, ⟨.kEventNone, .kReasonNone, 0⟩⟩,
          pendingEvent := ⟨true, 7⟩ } =
      .ok (.kSuccess,
        { pid := 1, handle := some 4, terminated := true,
          threads := [⟨7, 2, .kStopped, ⟨.kEventKill, .kReasonNone, 0⟩⟩],
          currentThread := some ⟨7, 2, .kStopped, ⟨.kEventKill, .kReasonNone, 0⟩⟩,
          pendingEvent := ⟨true, 7⟩ }) :=
  C1_wait_after_terminate {} []
    { pid := 1, handle := some 4, terminated := true,
      threads := [⟨7, 2, .kStopped, ⟨.kEventNone, .kReasonNone, 0⟩⟩],
      currentThread := some ⟨7, 2, .kStopped, ⟨.kEventNone, .kReasonNone, 0⟩⟩,
      pendingEvent := ⟨true, 7⟩ }
    ⟨7, 2, .kStopped, ⟨.kEventNone, .kReasonNone, 0⟩⟩ rfl rfl

/-- C2: a process-exited native event requires the thread registry to hold
exactly one thread — any other count aborts on the `DS2ASSERT`, never
silently — and that one thread must be the reporter (a lookup miss also
aborts); in the successful case the surviving thread is the current one,
terminated, carrying the native exit status. -/
theorem C2_exitProcess_single_thread (oracle : WaitOracle)
    (rest : List DebugEvent) (s : ProcState) (tid : Nat)
    (hterm : s.terminated = false) :
    (s.threads.length ≠ 1 →
        s.wait oracle (.exitProcess tid :: rest) =
          .error "DS2ASSERT failed: _threads.size() == 1") ∧
    (∀ t, s.threads = [t] → t.tid ≠ tid →
        s.wait oracle (.exitProcess tid :: rest) =
          .error "DS2ASSERT failed: threadIt != threads.end()") ∧
    (∀ t exitCode, s.threads = [t] → t.tid = tid →
        s.pendingEvent.valid = false →
        oracle.exitCodeResult = some exitCode →
        ∃ t3, s.wait oracle (.exitProcess tid :: rest) =
            .ok (.kSuccess,
              { s with currentThread := some t3, threads := [t3],
                       terminated := true, pendingEvent := ⟨true, tid⟩ }) ∧
          t3.tid = tid ∧ t3.state = .kTerminated ∧
          t3.stopInfo.event = .kEventExit ∧ t3.stopInfo.status = exitCode) := by
  refine ⟨fun h => ?_, fun t hth htid => ?_, fun t exitCode hth htid hpe hexit => ?_⟩
  · simp [ProcState.wait, hterm, ProcState.waitLoop, h]
  · simp [ProcState.wait, hterm, ProcState.waitLoop, hth, ProcState.findThread,
      htid]
  · subst htid
    refine ⟨⟨t.tid, t.handle, .kTerminated,
      ⟨.kEventExit, t.stopInfo.reason, exitCode⟩⟩, ?_, rfl, rfl, rfl, rfl⟩
    simp [ProcState.wait, hterm, ProcState.waitLoop, hth, ProcState.findThread,
      ProcState.setCurrentThread, PendingEvent.set, hpe, hexit, Thread.suspend]

/-- C2 witness: the assertion fires on an empty registry, and on a
singleton registry the reporter survives as the terminated current thread
with the native exit status. -/
theorem C2_exitProcess_single_thread_witness :
    (ProcState.wait { exitCodeResult := some 77 } [.exitProcess 5]
        { pid := 1, handle := some 3, terminated := false, threads := [],
          currentThread := none, pendingEvent := ⟨false, 0⟩ } =
      .error "DS2ASSERT failed: _threads.size() == 1") ∧
    (∃ t3, ProcState.wait { exitCodeResult := some 77 } [.exitProcess 5]
          { pid := 1, handle := some 3, terminated := false,
            threads := [⟨5, 8, .kStopped, ⟨.kEventNone, .kReasonNone, 0⟩⟩],
            currentThread := none, pendingEvent := ⟨false, 0⟩ } =
        .ok (.kSuccess,
          { pid := 1, handle := some 3, terminated := true, threads := [t3],
            currentThread := some t3, pendingEvent := ⟨true, 5⟩ }) ∧
      t3.tid = 5 ∧ t3.state = .kTerminated ∧
      t3.stopInfo.event = .kEventExit ∧ t3.stopInfo.status = 77) :=
  ⟨(C2_exitProcess_single_thread { exitCodeResult := some 77 } []
      { pid := 1, handle := some 3, terminated := false, threads := [],
        currentThread := none, pendingEvent := ⟨false, 0⟩ } 5 rfl).1 (by decide),
   (C2_exitProcess_single_thread { exitCodeResult := some 77 } []
      { pid := 1, handle := some 3, terminated := false,
        threads := [⟨5, 8, .kStopped, ⟨.kEventNone, .kReasonNone, 0⟩⟩],
        currentThread := none, pendingEvent := ⟨false, 0⟩ } 5 rfl).2.2
      ⟨5, 8, .kStopped, ⟨.kEventNone, .kReasonNone, 0⟩⟩ 77 rfl rfl rfl rfl⟩

/-- C4: a thread-created native event is absorbed by `wait`: the new thread
is registered and immediately resumed (running, registered at the end of
the registry), no stop is surfaced for the event, and the loop continues
with the remaining native events — so the outcome of the call is entirely
determined by the later events. -/
theorem C4_createThread_absorbed (oracle : WaitOracle) (rest : List DebugEvent)
    (s : ProcState) (tid hThread : Nat) (hterm : s.terminated = false)
    (hres : oracle.resumeErr tid = .kSuccess)
    (hfresh : ∀ u ∈ s.threads, u.tid ≠ tid) :
    s.wait oracle (.createThread tid hThread :: rest) =
      ProcState.waitLoop oracle
        { s with
            currentThread :=
              some ⟨tid, hThread, .kRunning, ⟨.kEventNone, .kReasonNone, 0⟩⟩
            threads := s.threads ++
              [⟨tid, hThread, .kRunning, ⟨.kEventNone, .kReasonNone, 0⟩⟩] }
        rest := by
  simp only [ProcState.wait, hterm]
  simp only [ProcState.waitLoop, ProcState.insertThread,
    ProcState.setCurrentThread, Thread.resume, hres]
  simp [map_replace_of_fresh _ _ _ hfresh, hterm]

/-- C4 witness: with one unrelated registered thread and an empty remainder
queue, the thread-created event leaves the new thread registered and
running while the call falls through to the failing native wait. -/
theorem C4_createThread_absorbed_witness :
    ProcState.wait {} [.createThread 2 6]
        { pid := 1, handle := some 9, terminated := false,
          threads := [⟨1, 5, .kStopped, ⟨.kEventNone, .kReasonNone, 0⟩⟩],
          currentThread := none, pendingEvent := ⟨false, 0⟩ } =
      ProcState.waitLoop {}
        { pid := 1, handle := some 9, terminated := false,
          threads := [⟨1, 5, .kStopped, ⟨.kEventNone, .kReasonNone, 0⟩⟩,
            ⟨2, 6, .kRunning, ⟨.kEventNone, .kReasonNone, 0⟩⟩],
          currentThread := some ⟨2, 6, .kRunning, ⟨.kEventNone, .kReasonNone, 0⟩⟩,
          pendingEvent := ⟨false, 0⟩ } [] :=
  C4_createThread_absorbed {} [] _ 2 6 rfl rfl (by decide)

/-- Main flags over a duplicate-free tail are uniformly false. -/
theorem map_beq_eq_replicate_false (tl : List Nat) (m0 : Nat) (h : m0 ∉ tl) :
    tl.map (fun m => m == m0) = List.replicate tl.length false := by
  induction tl with
  | nil => rfl
  | cons a tl ih =>
    simp only [List.mem_cons, not_or] at h
    simp [List.replicate_succ, ih h.2, beq_eq_false_iff_ne.mpr (Ne.symm h.1)]

/-- Behaviour of the module loop when every name query succeeds: one
descriptor per module, main flags by comparison with the first handle, no
backslash in any path. -/
theorem enumModulesLoop_success (getName : Nat → Option (List Char))
    (nameError firstModule : Nat) :
    ∀ mods : List Nat, (∀ m ∈ mods, getName m ≠ none) →
      (enumModulesLoop getName nameError firstModule mods).1 = .kSuccess ∧
      (enumModulesLoop getName nameError firstModule mods).2.length =
        mods.length ∧
      (enumModulesLoop getName nameError firstModule mods).2.map
          SharedLibraryInfo.main = mods.map (fun m => m == firstModule) ∧
      ∀ sl ∈ (enumModulesLoop getName nameError firstModule mods).2,
        '\\' ∉ sl.path := by
  intro mods
  induction mods with
  | nil => intro _; simp [enumModulesLoop]
  | cons m tl ih =>
    intro h
    cases hg : getName m with
    | none => exact absurd hg (h m (List.mem_cons_self m tl))
    | some nameStr =>
      have htl := ih fun u hu => h u (List.mem_cons_of_mem m hu)
      simp only [enumModulesLoop, hg]
      refine ⟨htl.1, by simp [htl.2.1], by simp [htl.2.2.1], ?_⟩
      intro sl hsl
      rcases List.mem_cons.mp hsl with hhead | htail
      · rw [hhead]
        exact normalizeModulePath_no_backslash nameStr
      · exact htl.2.2.2 sl htail

/-- C9: when both native enumeration calls succeed and every module name
query succeeds, the visitor runs exactly once per enumerated module, the
first visited module and only it carries the main flag, and no visited
path contains a backslash. -/
theorem C9_enumerateSharedLibraries_visits (enumError nameError : Nat)
    (modules : List Nat) (getName : Nat → Option (List Char))
    (hnames : ∀ m ∈ modules, getName m ≠ none) (hnodup : modules.Nodup) :
    (Process.enumerateSharedLibraries true true enumError modules getName
        nameError).1 = .kSuccess ∧
    (Process.enumerateSharedLibraries true true enumError modules getName
        nameError).2.length = modules.length ∧
    (modules ≠ [] →
        (Process.enumerateSharedLibraries true true enumError modules getName
            nameError).2.map SharedLibraryInfo.main =
          true :: List.replicate (modules.length - 1) false) ∧
    ∀ sl ∈ (Process.enumerateSharedLibraries true true enumError modules
        getName nameError).2, '\\' ∉ sl.path := by
  cases modules with
  | nil => simp [Process.enumerateSharedLibraries]
  | cons m0 tl =>
    have hred : Process.enumerateSharedLibraries true true enumError (m0 :: tl)
        getName nameError = enumModulesLoop getName nameError m0 (m0 :: tl) := rfl
    have h := enumModulesLoop_success getName nameError m0 (m0 :: tl) hnames
    have hnotmem : m0 ∉ tl := (List.nodup_cons.mp hnodup).1
    rw [hred]
    refine ⟨h.1, h.2.1, fun _ => ?_, h.2.2.2⟩
    rw [h.2.2.1]
    simp [map_beq_eq_replicate_false tl m0 hnotmem]

/-- C9 witness: two distinct modules with drive-letter backslash paths are
visited once each, only the first flagged main, with slash-separated
paths. -/
theorem C9_enumerateSharedLibraries_visits_witness :
    (Process.enumerateSharedLibraries true true 0 [10, 20]
        (fun m => some (if m = 10 then ['C', ':', '\\', 'a'] else ['D', ':', '\\', 'b']))
        0).1 = .kSuccess ∧
    (Process.enumerateSharedLibraries true true 0 [10, 20]
        (fun m => some (if m = 10 then ['C', ':', '\\', 'a'] else ['D', ':', '\\', 'b']))
        0).2.length = 2 ∧
    ((10 : Nat) :: [20] ≠ [] →
        (Process.enumerateSharedLibraries true true 0 [10, 20]
            (fun m => some (if m = 10 then ['C', ':', '\\', 'a'] else ['D', ':', '\\', 'b']))
            0).2.map SharedLibraryInfo.main =
          true :: List.replicate 1 false) ∧
    ∀ sl ∈ (Process.enumerateSharedLibraries true true 0 [10, 20]
        (fun m => some (if m = 10 then ['C', ':', '\\', 'a'] else ['D', ':', '\\', 'b']))
        0).2, '\\' ∉ sl.path :=
  C9_enumerateSharedLibraries_visits 0 0 [10, 20]
    (fun m => some (if m = 10 then ['C', ':', '\\', 'a'] else ['D', ':', '\\', 'b']))
    (by decide) (by decide)

end DS2
